import Mathlib

/-!
Verification development for the account core of the canary repository
(src/src/creatures/players/account/account.hpp).

The repository ships only the class declaration (account.hpp); the
implementation file account.cpp is not among the sources.  Enumerations,
the class interface (member names and visibility) and the private data
layout are embedded directly from the header.  The behaviour of the
member functions is modelled from the specification (spec.md), as marked
on each definition.
-/

/-- The error enumeration, embedded from account.hpp lines 33-48. -/
inductive Errors : Type where
  | ERROR_NO
  | ERROR_DB
  | ERROR_INVALID_ACCOUNT_EMAIL
  | ERROR_INVALID_ACC_PASSWORD
  | ERROR_INVALID_ACC_TYPE
  | ERROR_INVALID_ID
  | ERROR_INVALID_LAST_DAY
  | ERROR_LOADING_ACCOUNT_PLAYERS
  | ERROR_NOT_INITIALIZED
  | ERROR_NULLPTR
  | ERROR_VALUE_NOT_ENOUGH_COINS
  | ERROR_VALUE_OVERFLOW
  | ERROR_PLAYER_NOT_FOUND
  deriving DecidableEq, Repr

export Errors (ERROR_NO ERROR_DB ERROR_INVALID_ACCOUNT_EMAIL
  ERROR_INVALID_ACC_PASSWORD ERROR_INVALID_ACC_TYPE ERROR_INVALID_ID
  ERROR_INVALID_LAST_DAY ERROR_LOADING_ACCOUNT_PLAYERS
  ERROR_NOT_INITIALIZED ERROR_NULLPTR ERROR_VALUE_NOT_ENOUGH_COINS
  ERROR_VALUE_OVERFLOW ERROR_PLAYER_NOT_FOUND)

/-- The account-type enumeration, embedded from account.hpp lines 50-57. -/
inductive AccountType : Type where
  | ACCOUNT_TYPE_NORMAL
  | ACCOUNT_TYPE_TUTOR
  | ACCOUNT_TYPE_SENIORTUTOR
  | ACCOUNT_TYPE_GAMEMASTER
  | ACCOUNT_TYPE_GOD
  deriving DecidableEq, Repr

export AccountType (ACCOUNT_TYPE_NORMAL ACCOUNT_TYPE_TUTOR
  ACCOUNT_TYPE_SENIORTUTOR ACCOUNT_TYPE_GAMEMASTER ACCOUNT_TYPE_GOD)

/-- The coin-transaction-type enumeration, embedded from account.hpp
lines 69-73. -/
inductive CoinTransactionType : Type where
  | COIN_ADD
  | COIN_REMOVE
  deriving DecidableEq, Repr

export CoinTransactionType (COIN_ADD COIN_REMOVE)

/-- The Player record, embedded from account.hpp lines 75-79:
a name and a deletion timestamp (uint64_t, 0 meaning not marked). -/
structure Player : Type where
  name : String
  deletion : Nat
  deriving DecidableEq, Repr

/-- One audit-log entry: the three arguments of
Account::RegisterCoinsTransaction (account.hpp lines 167-168). -/
structure CoinTx : Type where
  ttype : CoinTransactionType
  amount : Nat
  descr : String
  deriving DecidableEq, Repr

/-- One stored account row, as described by the spec's data model (§3)
and the scalar fields of the class (account.hpp lines 240-245). -/
structure AccountRow : Type where
  rid : Nat
  rname : String
  email : String
  password : String
  premiumDays : Nat
  premiumLastDay : Int
  accType : AccountType
  deriving DecidableEq, Repr

/-- Modelled from the spec: the PersistenceGateway state (§6).  The
gateway stores the account rows, and, for the single account the coin
ledger operates on, the coin balance, the append-only audit log and the
roster.  readOk and writeOk model whether a storage read or write
succeeds; fetches counts gateway read calls (used to state that an
operation does or does not touch the gateway). -/
structure Gateway : Type where
  rows : List AccountRow
  coinBalance : Nat
  coinLog : List CoinTx
  roster : List Player
  readOk : Bool
  writeOk : Bool
  fetches : Nat
  deriving DecidableEq, Repr

/-- The in-memory state of one Account instance.  The fields db_,
db_tasks_, id_, email_, password_, premium_remaining_days_,
premium_last_day_ and account_type_ are embedded from the private data
members of the class (account.hpp lines 237-245); the two interface
pointers are modelled as bound-or-not booleans.  name_ holds the
name-for-lookup supplied to the Account(std::string name) constructor
(account.hpp line 106); the header declares no member for it, so its
storage is modelled from the spec's lifecycle ("optionally seeded with
an id or a name-for-lookup", §3), with the empty string meaning unset. -/
structure AccountState : Type where
  db_ : Bool
  db_tasks_ : Bool
  id_ : Nat
  name_ : String
  email_ : String
  password_ : String
  premium_remaining_days_ : Nat
  premium_last_day_ : Int
  account_type_ : AccountType
  deriving DecidableEq, Repr

/-- The unsigned 32-bit maximum, the bound on coinBalance (spec §3). -/
def UINT32_MAX : Nat := 4294967295

/-- Modelled from the spec: one synchronous gateway read call (a fetch),
recorded in the fetches counter. -/
def bumpFetch (gw : Gateway) : Gateway := { gw with fetches := gw.fetches + 1 }

/-- Modelled from the spec: Account::AddCoins (account.hpp line 149;
implementation file absent).  Per §4.2/§4.3: fails ERROR_NOT_INITIALIZED
before both collaborators are bound or while id is unset; reads the
current balance from storage (ERROR_DB on read error); checks
current + amount against the 32-bit maximum (ERROR_VALUE_OVERFLOW
otherwise); then writes the new balance and the audit entry through the
gateway's atomic writeCoinBalanceAndLog unit (§6), so on write failure
it reports ERROR_DB and neither the balance nor the log entry persists. -/
def AddCoins (st : AccountState) (gw : Gateway) (amount : Nat) :
    Errors × AccountState × Gateway :=
  if st.db_ = false then (ERROR_NOT_INITIALIZED, st, gw)
  else if st.db_tasks_ = false then (ERROR_NOT_INITIALIZED, st, gw)
  else if st.id_ = 0 then (ERROR_NOT_INITIALIZED, st, gw)
  else
    if gw.readOk = false then (ERROR_DB, st, bumpFetch gw)
    else if UINT32_MAX < gw.coinBalance + amount then
      (ERROR_VALUE_OVERFLOW, st, bumpFetch gw)
    else if gw.writeOk = false then (ERROR_DB, st, bumpFetch gw)
    else
      (ERROR_NO, st,
        { bumpFetch gw with
          coinBalance := gw.coinBalance + amount,
          coinLog := gw.coinLog ++ [⟨COIN_ADD, amount, "ADD Coins"⟩] })

/-- Modelled from the spec: Account::RemoveCoins (account.hpp line 157;
implementation file absent).  Same shape as AddCoins (§4.3), checking
that the balance does not underflow (ERROR_VALUE_NOT_ENOUGH_COINS when
amount exceeds the current balance), then writing the new balance and
the COIN_REMOVE audit entry through the gateway's atomic unit. -/
def RemoveCoins (st : AccountState) (gw : Gateway) (amount : Nat) :
    Errors × AccountState × Gateway :=
  if st.db_ = false then (ERROR_NOT_INITIALIZED, st, gw)
  else if st.db_tasks_ = false then (ERROR_NOT_INITIALIZED, st, gw)
  else if st.id_ = 0 then (ERROR_NOT_INITIALIZED, st, gw)
  else
    if gw.readOk = false then (ERROR_DB, st, bumpFetch gw)
    else if gw.coinBalance < amount then
      (ERROR_VALUE_NOT_ENOUGH_COINS, st, bumpFetch gw)
    else if gw.writeOk = false then (ERROR_DB, st, bumpFetch gw)
    else
      (ERROR_NO, st,
        { bumpFetch gw with
          coinBalance := gw.coinBalance - amount,
          coinLog := gw.coinLog ++ [⟨COIN_REMOVE, amount, "REMOVE Coins"⟩] })

/-- Modelled from the spec: Account::RegisterCoinsTransaction
(account.hpp lines 167-168; implementation file absent).  Registers one
coin transaction in the database (§4.3 RecordTransaction): appends one
audit-log entry through the gateway, leaving the balance untouched. -/
def RegisterCoinsTransaction (st : AccountState) (gw : Gateway)
    (ty : CoinTransactionType) (amount : Nat) (descr : String) :
    Errors × AccountState × Gateway :=
  if st.db_ = false then (ERROR_NOT_INITIALIZED, st, gw)
  else if st.db_tasks_ = false then (ERROR_NOT_INITIALIZED, st, gw)
  else if st.id_ = 0 then (ERROR_NOT_INITIALIZED, st, gw)
  else if gw.writeOk = false then (ERROR_DB, st, gw)
  else (ERROR_NO, st, { gw with coinLog := gw.coinLog ++ [⟨ty, amount, descr⟩] })

/-- Modelled from the spec: populating the scalar fields of the instance
from a fetched account row (Load step (a), §4.2). -/
def populate (st : AccountState) (r : AccountRow) : AccountState :=
  { st with
    id_ := r.rid,
    email_ := r.email,
    password_ := r.password,
    premium_remaining_days_ := r.premiumDays,
    premium_last_day_ := r.premiumLastDay,
    account_type_ := r.accType }

/-- Modelled from the spec: Account::LoadAccountDB(uint32_t id)
(account.hpp line 197; implementation file absent).  Per §4.2, the
explicit-parameter variant rejects with an error, without touching the
instance or the gateway, when the instance already has a different id
bound; otherwise it requires both collaborators bound, fetches the row
by id (ERROR_DB on storage failure, ERROR_INVALID_ID when no row
matches) and populates the scalar fields. -/
def LoadAccountDBById (st : AccountState) (gw : Gateway) (id : Nat) :
    Errors × AccountState × Gateway :=
  if st.id_ ≠ 0 ∧ st.id_ ≠ id then (ERROR_INVALID_ID, st, gw)
  else if st.db_ = false then (ERROR_NOT_INITIALIZED, st, gw)
  else if st.db_tasks_ = false then (ERROR_NOT_INITIALIZED, st, gw)
  else
    if gw.readOk = false then (ERROR_DB, st, bumpFetch gw)
    else
      match gw.rows.find? (fun r => r.rid == id) with
      | none => (ERROR_INVALID_ID, st, bumpFetch gw)
      | some r => (ERROR_NO, populate st r, bumpFetch gw)

/-- Modelled from the spec: Account::LoadAccountDB(const std::string&)
(account.hpp line 189; implementation file absent).  Per §4.2, fetches
the row by name; when the instance already has an id bound and the
fetched row carries a different id, the call is rejected without
re-pointing the instance. -/
def LoadAccountDBByName (st : AccountState) (gw : Gateway) (n : String) :
    Errors × AccountState × Gateway :=
  if st.db_ = false then (ERROR_NOT_INITIALIZED, st, gw)
  else if st.db_tasks_ = false then (ERROR_NOT_INITIALIZED, st, gw)
  else
    if gw.readOk = false then (ERROR_DB, st, bumpFetch gw)
    else
      match gw.rows.find? (fun r => r.rname == n) with
      | none => (ERROR_INVALID_ID, st, bumpFetch gw)
      | some r =>
        if st.id_ ≠ 0 ∧ r.rid ≠ st.id_ then (ERROR_INVALID_ID, st, bumpFetch gw)
        else (ERROR_NO, populate st r, bumpFetch gw)

/-- Modelled from the spec: Account::LoadAccountDB() (account.hpp
line 181; implementation file absent).  Per §4.2, resolves using
whichever of id and name was supplied (id takes precedence); when
neither is set it fails with ERROR_INVALID_ID and never calls the
gateway. -/
def LoadAccountDBNoArg (st : AccountState) (gw : Gateway) :
    Errors × AccountState × Gateway :=
  if st.id_ ≠ 0 then LoadAccountDBById st gw st.id_
  else if st.name_ ≠ "" then LoadAccountDBByName st gw st.name_
  else (ERROR_INVALID_ID, st, gw)

/-- Modelled from the spec: the scalar-field write performed by Save
(writeAccount of §6): the row bound to the instance's id receives the
instance's current scalar field values; every other row is untouched. -/
def saveRow (st : AccountState) (r : AccountRow) : AccountRow :=
  if r.rid = st.id_ then
    { r with
      email := st.email_,
      password := st.password_,
      premiumDays := st.premium_remaining_days_,
      premiumLastDay := st.premium_last_day_,
      accType := st.account_type_ }
  else r

/-- Modelled from the spec: Account::SaveAccountDB (account.hpp
line 204; implementation file absent).  Per §4.2, persists the current
scalar field values (email, password, premium fields, account type) for
the bound id; fails ERROR_NOT_INITIALIZED when the collaborators or the
id are unbound, ERROR_DB on write failure.  Coin balance, audit log and
roster are not part of Save. -/
def SaveAccountDB (st : AccountState) (gw : Gateway) :
    Errors × AccountState × Gateway :=
  if st.db_ = false then (ERROR_NOT_INITIALIZED, st, gw)
  else if st.db_tasks_ = false then (ERROR_NOT_INITIALIZED, st, gw)
  else if st.id_ = 0 then (ERROR_NOT_INITIALIZED, st, gw)
  else if gw.writeOk = false then (ERROR_DB, st, gw)
  else (ERROR_NO, st, { gw with rows := gw.rows.map (saveRow st) })

/-- Modelled from the spec: Account::GetCoins (account.hpp line 141;
implementation file absent).  The header's own doc comment says the
amount of coins is read from the database.  The coins out-parameter is
modelled by ptrValid (false for a null pointer, yielding ERROR_NULLPTR
with nothing written and no storage touched, per the ERROR_NULLPTR code
of the header and the NullReference code of §4.1) together with the
Option in the result. -/
def GetCoins (st : AccountState) (gw : Gateway) (ptrValid : Bool) :
    Errors × Option Nat × Gateway :=
  if ptrValid = false then (ERROR_NULLPTR, none, gw)
  else if st.db_ = false then (ERROR_NOT_INITIALIZED, none, gw)
  else if st.db_tasks_ = false then (ERROR_NOT_INITIALIZED, none, gw)
  else if st.id_ = 0 then (ERROR_NOT_INITIALIZED, none, gw)
  else
    if gw.readOk = false then (ERROR_DB, none, bumpFetch gw)
    else (ERROR_NO, some gw.coinBalance, bumpFetch gw)

/-- Modelled from the spec: Account::GetID (account.hpp line 211;
implementation file absent).  Pure in-memory accessor (§4.2); a null
out-pointer yields ERROR_NULLPTR with the state untouched. -/
def GetID (st : AccountState) (ptrValid : Bool) : Errors × Option Nat :=
  if ptrValid = false then (ERROR_NULLPTR, none)
  else (ERROR_NO, some st.id_)

/-- Modelled from the spec: Account::GetEmail (account.hpp line 214;
implementation file absent). -/
def GetEmail (st : AccountState) (ptrValid : Bool) : Errors × Option String :=
  if ptrValid = false then (ERROR_NULLPTR, none)
  else (ERROR_NO, some st.email_)

/-- Modelled from the spec: Account::GetPassword (account.hpp line 217;
implementation file absent). -/
def GetPassword (st : AccountState) (ptrValid : Bool) : Errors × Option String :=
  if ptrValid = false then (ERROR_NULLPTR, none)
  else (ERROR_NO, some st.password_)

/-- Modelled from the spec: Account::GetPremiumRemaningDays (account.hpp
line 220; implementation file absent). -/
def GetPremiumRemaningDays (st : AccountState) (ptrValid : Bool) :
    Errors × Option Nat :=
  if ptrValid = false then (ERROR_NULLPTR, none)
  else (ERROR_NO, some st.premium_remaining_days_)

/-- Modelled from the spec: Account::GetPremiumLastDay (account.hpp
line 223; implementation file absent). -/
def GetPremiumLastDay (st : AccountState) (ptrValid : Bool) :
    Errors × Option Int :=
  if ptrValid = false then (ERROR_NULLPTR, none)
  else (ERROR_NO, some st.premium_last_day_)

/-- Modelled from the spec: Account::GetAccountType (account.hpp
line 226; implementation file absent). -/
def GetAccountType (st : AccountState) (ptrValid : Bool) :
    Errors × Option AccountType :=
  if ptrValid = false then (ERROR_NULLPTR, none)
  else (ERROR_NO, some st.account_type_)

/-- Modelled from the spec: Account::GetAccountPlayers (account.hpp
line 229; implementation file absent).  The class declares no roster
data member (account.hpp lines 237-245), only the database helper
LoadAccountPlayersDB (line 234), so the roster is fetched from the
gateway on every call; per §4.2 a roster that fails to materialize
yields ERROR_LOADING_ACCOUNT_PLAYERS, and the stored entries are
returned in their stored order. -/
def GetAccountPlayers (st : AccountState) (gw : Gateway) (ptrValid : Bool) :
    Errors × Option (List Player) × Gateway :=
  if ptrValid = false then (ERROR_NULLPTR, none, gw)
  else if st.db_ = false then (ERROR_NOT_INITIALIZED, none, gw)
  else if st.db_tasks_ = false then (ERROR_NOT_INITIALIZED, none, gw)
  else if st.id_ = 0 then (ERROR_NOT_INITIALIZED, none, gw)
  else
    if gw.readOk = false then (ERROR_LOADING_ACCOUNT_PLAYERS, none, bumpFetch gw)
    else (ERROR_NO, some gw.roster, bumpFetch gw)

/-- Modelled from the spec: Account::GetAccountPlayer (account.hpp
line 228; implementation file absent).  Looks up one roster entry by
exact name (§4.2 GetPlayer): ERROR_PLAYER_NOT_FOUND when absent,
ERROR_LOADING_ACCOUNT_PLAYERS when the roster fails to materialize. -/
def GetAccountPlayer (st : AccountState) (gw : Gateway) (ptrValid : Bool)
    (characterName : String) : Errors × Option Player × Gateway :=
  if ptrValid = false then (ERROR_NULLPTR, none, gw)
  else if st.db_ = false then (ERROR_NOT_INITIALIZED, none, gw)
  else if st.db_tasks_ = false then (ERROR_NOT_INITIALIZED, none, gw)
  else if st.id_ = 0 then (ERROR_NOT_INITIALIZED, none, gw)
  else
    if gw.readOk = false then (ERROR_LOADING_ACCOUNT_PLAYERS, none, bumpFetch gw)
    else
      match gw.roster.find? (fun p => p.name == characterName) with
      | none => (ERROR_PLAYER_NOT_FOUND, none, bumpFetch gw)
      | some p => (ERROR_NO, some p, bumpFetch gw)

/-- Member visibility in a C++ class declaration. -/
inductive Vis : Type where
  | pub
  | priv
  deriving DecidableEq, Repr

/-- One member-function declaration of the Account class: its name (with
a disambiguating argument hint for overloads) and its visibility. -/
structure MemberDecl : Type where
  mname : String
  vis : Vis
  deriving DecidableEq, Repr

/-- The member functions of class Account with their visibility,
embedded in declaration order from account.hpp lines 85-246: the public
section runs from line 87 to line 229, the private section from line 231
to line 235. -/
def accountMembers : List MemberDecl :=
  [⟨"Account()", Vis.pub⟩,
   ⟨"Account(id)", Vis.pub⟩,
   ⟨"Account(name)", Vis.pub⟩,
   ⟨"SetDatabaseInterface", Vis.pub⟩,
   ⟨"SetDatabaseTasksInterface", Vis.pub⟩,
   ⟨"GetCoins", Vis.pub⟩,
   ⟨"AddCoins", Vis.pub⟩,
   ⟨"RemoveCoins", Vis.pub⟩,
   ⟨"RegisterCoinsTransaction", Vis.pub⟩,
   ⟨"LoadAccountDB()", Vis.pub⟩,
   ⟨"LoadAccountDB(name)", Vis.pub⟩,
   ⟨"LoadAccountDB(id)", Vis.pub⟩,
   ⟨"SaveAccountDB", Vis.pub⟩,
   ⟨"GetID", Vis.pub⟩,
   ⟨"SetEmail", Vis.pub⟩,
   ⟨"GetEmail", Vis.pub⟩,
   ⟨"SetPassword", Vis.pub⟩,
   ⟨"GetPassword", Vis.pub⟩,
   ⟨"SetPremiumRemaningDays", Vis.pub⟩,
   ⟨"GetPremiumRemaningDays", Vis.pub⟩,
   ⟨"SetPremiumLastDay", Vis.pub⟩,
   ⟨"GetPremiumLastDay", Vis.pub⟩,
   ⟨"SetAccountType", Vis.pub⟩,
   ⟨"GetAccountType", Vis.pub⟩,
   ⟨"GetAccountPlayer", Vis.pub⟩,
   ⟨"GetAccountPlayers", Vis.pub⟩,
   ⟨"SetID", Vis.priv⟩,
   ⟨"LoadAccountDB(query)", Vis.priv⟩,
   ⟨"LoadAccountPlayersDB", Vis.priv⟩,
   ⟨"LoadAccountPlayerDB", Vis.priv⟩]

/-- The C++ types that occur as (or could hold) Account data members;
tVectorPlayer is the type a cached roster snapshot would have. -/
inductive CppType : Type where
  | tDatabasePtr
  | tDatabaseTasksPtr
  | tUint32
  | tString
  | tTimeT
  | tAccountType
  | tVectorPlayer
  deriving DecidableEq, Repr

/-- The private data members of class Account with their types, embedded
in declaration order from account.hpp lines 237-245. -/
def accountDataMembers : List (String × CppType) :=
  [("db_", CppType.tDatabasePtr),
   ("db_tasks_", CppType.tDatabaseTasksPtr),
   ("id_", CppType.tUint32),
   ("email_", CppType.tString),
   ("password_", CppType.tString),
   ("premium_remaining_days_", CppType.tUint32),
   ("premium_last_day_", CppType.tTimeT),
   ("account_type_", CppType.tAccountType)]

/-- A fully bound sample instance (both collaborators bound, id 42). -/
def stOk : AccountState :=
  ⟨true, true, 42, "", "mail@x", "pw", 30, 100, ACCOUNT_TYPE_NORMAL⟩

/-- A fresh unbound sample instance: neither id nor name set. -/
def stEmpty : AccountState :=
  ⟨true, true, 0, "", "", "", 0, 0, ACCOUNT_TYPE_NORMAL⟩

/-- A sample gateway in good health with balance 100 and an empty log. -/
def gw100 : Gateway :=
  ⟨[⟨42, "acc", "old@x", "oldpw", 5, 7, ACCOUNT_TYPE_TUTOR⟩],
   100, [], [⟨"Hero", 0⟩, ⟨"Alt", 1699999999⟩], true, true, 0⟩

/-- A sample gateway whose balance sits near the 32-bit maximum
(the spec's overflow scenario, balance 4294967290). -/
def gwNearMax : Gateway :=
  ⟨[⟨42, "acc", "old@x", "oldpw", 5, 7, ACCOUNT_TYPE_TUTOR⟩],
   4294967290, [], [], true, true, 0⟩

/-- A sample gateway whose writes fail (reads still succeed). -/
def gwNoWrite : Gateway :=
  ⟨[⟨42, "acc", "old@x", "oldpw", 5, 7, ACCOUNT_TYPE_TUTOR⟩],
   100, [], [], true, false, 0⟩

/-- Branch lemma: AddCoins on an initialized instance with a readable
gateway rejects an addition that would exceed the 32-bit maximum. -/
theorem AddCoins_overflow_eq (st : AccountState) (gw : Gateway) (a : Nat)
    (hdb : st.db_ = true) (htk : st.db_tasks_ = true) (hid : st.id_ ≠ 0)
    (hr : gw.readOk = true) (hov : UINT32_MAX < gw.coinBalance + a) :
    AddCoins st gw a = (ERROR_VALUE_OVERFLOW, st, bumpFetch gw) := by
  simp [AddCoins, hdb, htk, hid, hr, hov]

/-- Branch lemma: AddCoins on an initialized instance with a healthy
gateway and no overflow applies the balance and appends one entry. -/
theorem AddCoins_success_eq (st : AccountState) (gw : Gateway) (a : Nat)
    (hdb : st.db_ = true) (htk : st.db_tasks_ = true) (hid : st.id_ ≠ 0)
    (hr : gw.readOk = true) (hov : gw.coinBalance + a ≤ UINT32_MAX)
    (hw : gw.writeOk = true) :
    AddCoins st gw a =
      (ERROR_NO, st,
        { bumpFetch gw with
          coinBalance := gw.coinBalance + a,
          coinLog := gw.coinLog ++ [⟨COIN_ADD, a, "ADD Coins"⟩] }) := by
  simp [AddCoins, hdb, htk, hid, hr, hw, Nat.not_lt.mpr hov]

/-- Branch lemma: RemoveCoins on an initialized instance with a readable
gateway rejects an amount above the current balance. -/
theorem RemoveCoins_insufficient_eq (st : AccountState) (gw : Gateway) (a : Nat)
    (hdb : st.db_ = true) (htk : st.db_tasks_ = true) (hid : st.id_ ≠ 0)
    (hr : gw.readOk = true) (hlt : gw.coinBalance < a) :
    RemoveCoins st gw a = (ERROR_VALUE_NOT_ENOUGH_COINS, st, bumpFetch gw) := by
  simp [RemoveCoins, hdb, htk, hid, hr, hlt]

/-- Branch lemma: RemoveCoins on an initialized instance with a healthy
gateway and a sufficient balance applies the balance and appends one
entry. -/
theorem RemoveCoins_success_eq (st : AccountState) (gw : Gateway) (a : Nat)
    (hdb : st.db_ = true) (htk : st.db_tasks_ = true) (hid : st.id_ ≠ 0)
    (hr : gw.readOk = true) (hle : a ≤ gw.coinBalance)
    (hw : gw.writeOk = true) :
    RemoveCoins st gw a =
      (ERROR_NO, st,
        { bumpFetch gw with
          coinBalance := gw.coinBalance - a,
          coinLog := gw.coinLog ++ [⟨COIN_REMOVE, a, "REMOVE Coins"⟩] }) := by
  simp [RemoveCoins, hdb, htk, hid, hr, hw, Nat.not_lt.mpr hle]

/-- C1: for every starting balance b and amount a such that b + a
exceeds the unsigned 32-bit maximum, AddCoins(a) returns
ERROR_VALUE_OVERFLOW, leaves the stored balance at b, and writes no
audit-log entry. -/
theorem C1_addCoins_overflow (st : AccountState) (gw : Gateway) (a : Nat)
    (hdb : st.db_ = true) (htk : st.db_tasks_ = true) (hid : st.id_ ≠ 0)
    (hr : gw.readOk = true) (hov : UINT32_MAX < gw.coinBalance + a) :
    (AddCoins st gw a).1 = ERROR_VALUE_OVERFLOW ∧
    (AddCoins st gw a).2.1 = st ∧
    (AddCoins st gw a).2.2.coinBalance = gw.coinBalance ∧
    (AddCoins st gw a).2.2.coinLog = gw.coinLog := by
  rw [AddCoins_overflow_eq st gw a hdb htk hid hr hov]
  exact ⟨rfl, rfl, rfl, rfl⟩

/-- Witness for C1, at the spec's scenario: balance 4294967290 near the
32-bit maximum, Add(10). -/
theorem C1_addCoins_overflow_witness :
    stOk.db_ = true ∧ stOk.db_tasks_ = true ∧ stOk.id_ ≠ 0 ∧
    gwNearMax.readOk = true ∧ UINT32_MAX < gwNearMax.coinBalance + 10 ∧
    ((AddCoins stOk gwNearMax 10).1 = ERROR_VALUE_OVERFLOW ∧
     (AddCoins stOk gwNearMax 10).2.1 = stOk ∧
     (AddCoins stOk gwNearMax 10).2.2.coinBalance = gwNearMax.coinBalance ∧
     (AddCoins stOk gwNearMax 10).2.2.coinLog = gwNearMax.coinLog) :=
  ⟨rfl, rfl, by decide, rfl, by decide,
   C1_addCoins_overflow stOk gwNearMax 10 rfl rfl (by decide) rfl (by decide)⟩

/-- C2: for every starting balance b and amount a with a > b,
RemoveCoins(a) returns ERROR_VALUE_NOT_ENOUGH_COINS and leaves the
stored balance at b. -/
theorem C2_removeCoins_insufficient (st : AccountState) (gw : Gateway) (a : Nat)
    (hdb : st.db_ = true) (htk : st.db_tasks_ = true) (hid : st.id_ ≠ 0)
    (hr : gw.readOk = true) (hlt : gw.coinBalance < a) :
    (RemoveCoins st gw a).1 = ERROR_VALUE_NOT_ENOUGH_COINS ∧
    (RemoveCoins st gw a).2.1 = st ∧
    (RemoveCoins st gw a).2.2.coinBalance = gw.coinBalance ∧
    (RemoveCoins st gw a).2.2.coinLog = gw.coinLog := by
  rw [RemoveCoins_insufficient_eq st gw a hdb htk hid hr hlt]
  exact ⟨rfl, rfl, rfl, rfl⟩

/-- Witness for C2, at the spec's scenario: balance 100, Remove(150). -/
theorem C2_removeCoins_insufficient_witness :
    stOk.db_ = true ∧ stOk.db_tasks_ = true ∧ stOk.id_ ≠ 0 ∧
    gw100.readOk = true ∧ gw100.coinBalance < 150 ∧
    ((RemoveCoins stOk gw100 150).1 = ERROR_VALUE_NOT_ENOUGH_COINS ∧
     (RemoveCoins stOk gw100 150).2.1 = stOk ∧
     (RemoveCoins stOk gw100 150).2.2.coinBalance = gw100.coinBalance ∧
     (RemoveCoins stOk gw100 150).2.2.coinLog = gw100.coinLog) :=
  ⟨rfl, rfl, by decide, rfl, by decide,
   C2_removeCoins_insufficient stOk gw100 150 rfl rfl (by decide) rfl (by decide)⟩

/-- C3: every successful coin mutation appends exactly one audit-log
entry together with its balance change, and any unsuccessful mutation
changes neither the balance nor the log; in particular a write failure
on an otherwise valid mutation is reported as ERROR_DB with neither
write persisted (the gateway's atomic unit). -/
theorem C3_coinMutationsAudited (st : AccountState) (gw : Gateway) (a : Nat) :
    ((AddCoins st gw a).1 = ERROR_NO →
      (AddCoins st gw a).2.2.coinLog = gw.coinLog ++ [⟨COIN_ADD, a, "ADD Coins"⟩] ∧
      (AddCoins st gw a).2.2.coinBalance = gw.coinBalance + a) ∧
    ((AddCoins st gw a).1 ≠ ERROR_NO →
      (AddCoins st gw a).2.2.coinLog = gw.coinLog ∧
      (AddCoins st gw a).2.2.coinBalance = gw.coinBalance) ∧
    (st.db_ = true → st.db_tasks_ = true → st.id_ ≠ 0 → gw.readOk = true →
      gw.writeOk = false → gw.coinBalance + a ≤ UINT32_MAX →
      (AddCoins st gw a).1 = ERROR_DB) ∧
    ((RemoveCoins st gw a).1 = ERROR_NO →
      (RemoveCoins st gw a).2.2.coinLog = gw.coinLog ++ [⟨COIN_REMOVE, a, "REMOVE Coins"⟩] ∧
      (RemoveCoins st gw a).2.2.coinBalance = gw.coinBalance - a) ∧
    ((RemoveCoins st gw a).1 ≠ ERROR_NO →
      (RemoveCoins st gw a).2.2.coinLog = gw.coinLog ∧
      (RemoveCoins st gw a).2.2.coinBalance = gw.coinBalance) ∧
    (st.db_ = true → st.db_tasks_ = true → st.id_ ≠ 0 → gw.readOk = true →
      gw.writeOk = false → a ≤ gw.coinBalance →
      (RemoveCoins st gw a).1 = ERROR_DB) := by
  refine ⟨?_, ?_, ?_, ?_, ?_, ?_⟩ <;>
    (first
      | (unfold AddCoins; split_ifs <;> simp_all [bumpFetch, Nat.not_lt])
      | (unfold RemoveCoins; split_ifs <;> simp_all [bumpFetch, Nat.not_lt]))

/-- Witness for C3, exercising the write-failure conjuncts at a concrete
state (gateway whose writes fail, balance 100, amount 5). -/
theorem C3_coinMutationsAudited_witness :
    stOk.db_ = true ∧ stOk.db_tasks_ = true ∧ stOk.id_ ≠ 0 ∧
    gwNoWrite.readOk = true ∧ gwNoWrite.writeOk = false ∧
    gwNoWrite.coinBalance + 5 ≤ UINT32_MAX ∧ 5 ≤ gwNoWrite.coinBalance ∧
    (AddCoins stOk gwNoWrite 5).1 = ERROR_DB ∧
    (RemoveCoins stOk gwNoWrite 5).1 = ERROR_DB :=
  ⟨rfl, rfl, by decide, rfl, rfl, by decide, by decide,
   (C3_coinMutationsAudited stOk gwNoWrite 5).2.2.1 rfl rfl (by decide) rfl rfl (by decide),
   (C3_coinMutationsAudited stOk gwNoWrite 5).2.2.2.2.2 rfl rfl (by decide) rfl rfl (by decide)⟩

/-- C4: for every amount a valid at the current balance (no overflow),
AddCoins(a) followed by RemoveCoins(a) succeeds, restores the original
stored balance, and appends exactly two audit-log entries. -/
theorem C4_addRemove_roundtrip (st : AccountState) (gw : Gateway) (a : Nat)
    (hdb : st.db_ = true) (htk : st.db_tasks_ = true) (hid : st.id_ ≠ 0)
    (hr : gw.readOk = true) (hw : gw.writeOk = true)
    (hov : gw.coinBalance + a ≤ UINT32_MAX) :
    (AddCoins st gw a).1 = ERROR_NO ∧
    (RemoveCoins (AddCoins st gw a).2.1 (AddCoins st gw a).2.2 a).1 = ERROR_NO ∧
    (RemoveCoins (AddCoins st gw a).2.1 (AddCoins st gw a).2.2 a).2.2.coinBalance
      = gw.coinBalance ∧
    (RemoveCoins (AddCoins st gw a).2.1 (AddCoins st gw a).2.2 a).2.2.coinLog.length
      = gw.coinLog.length + 2 := by
  have h1 := AddCoins_success_eq st gw a hdb htk hid hr hov hw
  rw [h1]
  have h2 := RemoveCoins_success_eq st
    ({ bumpFetch gw with
       coinBalance := gw.coinBalance + a,
       coinLog := gw.coinLog ++ [⟨COIN_ADD, a, "ADD Coins"⟩] }) a
    hdb htk hid (by simpa [bumpFetch] using hr) (Nat.le_add_left a gw.coinBalance)
    (by simpa [bumpFetch] using hw)
  rw [h2]
  refine ⟨rfl, rfl, by simp, by simp⟩

/-- Witness for C4: balance 100, amount 25. -/
theorem C4_addRemove_roundtrip_witness :
    stOk.db_ = true ∧ stOk.db_tasks_ = true ∧ stOk.id_ ≠ 0 ∧
    gw100.readOk = true ∧ gw100.writeOk = true ∧
    gw100.coinBalance + 25 ≤ UINT32_MAX ∧
    ((AddCoins stOk gw100 25).1 = ERROR_NO ∧
     (RemoveCoins (AddCoins stOk gw100 25).2.1 (AddCoins stOk gw100 25).2.2 25).1 = ERROR_NO ∧
     (RemoveCoins (AddCoins stOk gw100 25).2.1 (AddCoins stOk gw100 25).2.2 25).2.2.coinBalance
       = gw100.coinBalance ∧
     (RemoveCoins (AddCoins stOk gw100 25).2.1 (AddCoins stOk gw100 25).2.2 25).2.2.coinLog.length
       = gw100.coinLog.length + 2) :=
  ⟨rfl, rfl, by decide, rfl, rfl, by decide,
   C4_addRemove_roundtrip stOk gw100 25 rfl rfl (by decide) rfl rfl (by decide)⟩

/-- C5 counterexample: the claim that the transaction-recording
operation is not independently exposed fails on the header: the
declaration list of class Account does not place
RegisterCoinsTransaction in the private section — it sits in the public
section (account.hpp lines 87-229). -/
theorem C5_registerExposed_cex :
    ¬ (∀ m ∈ accountMembers,
        m.mname = "RegisterCoinsTransaction" → m.vis = Vis.priv) := by
  decide

/-- C5 (amended): RegisterCoinsTransaction is declared in the public
section of class Account, so it is independently exposed; invoked
standalone it appends one audit-log entry while leaving the coin
balance unchanged, i.e. a log entry can be written without a matching
balance change. -/
theorem C5_registerCoinsTransactionPublic (st : AccountState) (gw : Gateway)
    (ty : CoinTransactionType) (a : Nat) (d : String)
    (hdb : st.db_ = true) (htk : st.db_tasks_ = true) (hid : st.id_ ≠ 0)
    (hw : gw.writeOk = true) :
    (accountMembers.find? (fun m => m.mname == "RegisterCoinsTransaction")).map
        MemberDecl.vis = some Vis.pub ∧
    (RegisterCoinsTransaction st gw ty a d).1 = ERROR_NO ∧
    (RegisterCoinsTransaction st gw ty a d).2.2.coinLog = gw.coinLog ++ [⟨ty, a, d⟩] ∧
    (RegisterCoinsTransaction st gw ty a d).2.2.coinBalance = gw.coinBalance := by
  refine ⟨by decide, ?_⟩
  simp [RegisterCoinsTransaction, hdb, htk, hid, hw]

/-- Witness for C5 (amended): an ad-hoc COIN_ADD log entry of 5 coins. -/
theorem C5_registerCoinsTransactionPublic_witness :
    stOk.db_ = true ∧ stOk.db_tasks_ = true ∧ stOk.id_ ≠ 0 ∧
    gw100.writeOk = true ∧
    ((accountMembers.find? (fun m => m.mname == "RegisterCoinsTransaction")).map
        MemberDecl.vis = some Vis.pub ∧
     (RegisterCoinsTransaction stOk gw100 COIN_ADD 5 "adhoc").1 = ERROR_NO ∧
     (RegisterCoinsTransaction stOk gw100 COIN_ADD 5 "adhoc").2.2.coinLog
       = gw100.coinLog ++ [⟨COIN_ADD, 5, "adhoc"⟩] ∧
     (RegisterCoinsTransaction stOk gw100 COIN_ADD 5 "adhoc").2.2.coinBalance
       = gw100.coinBalance) :=
  ⟨rfl, rfl, by decide, rfl,
   C5_registerCoinsTransactionPublic stOk gw100 COIN_ADD 5 "adhoc"
     rfl rfl (by decide) rfl⟩

/-- C6: once an instance has a nonzero id bound, the id is never
re-pointed: loading by a different explicit id is rejected with
ERROR_INVALID_ID leaving the instance and the gateway untouched; every
Load variant leaves id_ at its bound value; and loading by a name whose
row carries a different id is an error that leaves the instance
unchanged. -/
theorem C6_idSetAtMostOnce (st : AccountState) (gw : Gateway)
    (hid : st.id_ ≠ 0) :
    (∀ i, i ≠ st.id_ → LoadAccountDBById st gw i = (ERROR_INVALID_ID, st, gw)) ∧
    (∀ i, (LoadAccountDBById st gw i).2.1.id_ = st.id_) ∧
    (∀ n, (LoadAccountDBByName st gw n).2.1.id_ = st.id_) ∧
    (∀ n r, gw.rows.find? (fun row => row.rname == n) = some r →
      r.rid ≠ st.id_ →
      (LoadAccountDBByName st gw n).1 ≠ ERROR_NO ∧
      (LoadAccountDBByName st gw n).2.1 = st) ∧
    (LoadAccountDBNoArg st gw).2.1.id_ = st.id_ := by
  have hById : ∀ i, (LoadAccountDBById st gw i).2.1.id_ = st.id_ := by
    intro i
    unfold LoadAccountDBById
    split_ifs with h1 h2 h3 h4
    · rfl
    · rfl
    · rfl
    · rfl
    · split
      · rfl
      · next r heq =>
        have hp := List.find?_some heq
        simp only [beq_iff_eq] at hp
        have hie : st.id_ = i := by
          by_contra hne
          exact h1 ⟨hid, hne⟩
        simp [populate, hp, hie]
  have hByName : ∀ n, (LoadAccountDBByName st gw n).2.1.id_ = st.id_ := by
    intro n
    unfold LoadAccountDBByName
    split_ifs with h1 h2 h3
    · rfl
    · rfl
    · rfl
    · split
      · rfl
      · next r heq =>
        by_cases hcase : st.id_ ≠ 0 ∧ r.rid ≠ st.id_
        · rw [if_pos hcase]
        · rw [if_neg hcase]
          have hrr : r.rid = st.id_ := by
            by_contra hne
            exact hcase ⟨hid, hne⟩
          simp [populate, hrr]
  refine ⟨?_, hById, hByName, ?_, ?_⟩
  · intro i hi
    unfold LoadAccountDBById
    rw [if_pos ⟨hid, fun h => hi h.symm⟩]
  · intro n r hf hrr
    unfold LoadAccountDBByName
    split_ifs with h1 h2 h3
    · exact ⟨by simp, rfl⟩
    · exact ⟨by simp, rfl⟩
    · exact ⟨by simp, rfl⟩
    · rw [hf]
      simp only []
      rw [if_pos ⟨hid, hrr⟩]
      exact ⟨by simp, rfl⟩
  · unfold LoadAccountDBNoArg
    rw [if_pos hid]
    exact hById st.id_

/-- Witness for C6: instance bound to id 42; loading by id 7 is
rejected and no Load variant changes the bound id. -/
theorem C6_idSetAtMostOnce_witness :
    stOk.id_ ≠ 0 ∧
    LoadAccountDBById stOk gw100 7 = (ERROR_INVALID_ID, stOk, gw100) ∧
    (LoadAccountDBNoArg stOk gw100).2.1.id_ = stOk.id_ :=
  ⟨by decide,
   (C6_idSetAtMostOnce stOk gw100 (by decide)).1 7 (by decide),
   (C6_idSetAtMostOnce stOk gw100 (by decide)).2.2.2.2⟩

/-- C7: LoadAccountDB() on an instance with neither id nor name set
returns ERROR_INVALID_ID, leaves the record in its prior state, and
performs no gateway call (the gateway, its fetch counter included, is
returned untouched). -/
theorem C7_loadWithoutIdentity (st : AccountState) (gw : Gateway)
    (hid : st.id_ = 0) (hn : st.name_ = "") :
    LoadAccountDBNoArg st gw = (ERROR_INVALID_ID, st, gw) := by
  unfold LoadAccountDBNoArg
  rw [if_neg (by simp [hid]), if_neg (by simp [hn])]

/-- Witness for C7: a fresh unbound instance. -/
theorem C7_loadWithoutIdentity_witness :
    stEmpty.id_ = 0 ∧ stEmpty.name_ = "" ∧
    LoadAccountDBNoArg stEmpty gw100 = (ERROR_INVALID_ID, stEmpty, gw100) :=
  ⟨rfl, rfl, C7_loadWithoutIdentity stEmpty gw100 rfl rfl⟩

/-- C8: SaveAccountDB fails ERROR_NOT_INITIALIZED when id is unset and
ERROR_DB on write failure, and on success persists exactly the scalar
fields (email, password, premium fields, account type) to the row bound
to id, touching neither the coin balance, nor the audit log, nor the
roster. -/
theorem C8_saveScalarFieldsOnly (st : AccountState) (gw : Gateway) :
    (st.db_ = true → st.db_tasks_ = true → st.id_ = 0 →
      SaveAccountDB st gw = (ERROR_NOT_INITIALIZED, st, gw)) ∧
    (st.db_ = true → st.db_tasks_ = true → st.id_ ≠ 0 → gw.writeOk = false →
      SaveAccountDB st gw = (ERROR_DB, st, gw)) ∧
    (st.db_ = true → st.db_tasks_ = true → st.id_ ≠ 0 → gw.writeOk = true →
      (SaveAccountDB st gw).1 = ERROR_NO ∧
      (SaveAccountDB st gw).2.1 = st ∧
      (SaveAccountDB st gw).2.2.coinBalance = gw.coinBalance ∧
      (SaveAccountDB st gw).2.2.coinLog = gw.coinLog ∧
      (SaveAccountDB st gw).2.2.roster = gw.roster ∧
      (SaveAccountDB st gw).2.2.fetches = gw.fetches ∧
      (SaveAccountDB st gw).2.2.rows = gw.rows.map (saveRow st)) := by
  refine ⟨?_, ?_, ?_⟩ <;> intros <;> simp_all [SaveAccountDB]

/-- Witness for C8: the three outcomes at concrete states (unbound id;
bound id with failing writes; bound id with a healthy gateway). -/
theorem C8_saveScalarFieldsOnly_witness :
    stEmpty.id_ = 0 ∧ stOk.id_ ≠ 0 ∧
    gwNoWrite.writeOk = false ∧ gw100.writeOk = true ∧
    SaveAccountDB stEmpty gw100 = (ERROR_NOT_INITIALIZED, stEmpty, gw100) ∧
    SaveAccountDB stOk gwNoWrite = (ERROR_DB, stOk, gwNoWrite) ∧
    ((SaveAccountDB stOk gw100).1 = ERROR_NO ∧
     (SaveAccountDB stOk gw100).2.1 = stOk ∧
     (SaveAccountDB stOk gw100).2.2.coinBalance = gw100.coinBalance ∧
     (SaveAccountDB stOk gw100).2.2.coinLog = gw100.coinLog ∧
     (SaveAccountDB stOk gw100).2.2.roster = gw100.roster ∧
     (SaveAccountDB stOk gw100).2.2.fetches = gw100.fetches ∧
     (SaveAccountDB stOk gw100).2.2.rows = gw100.rows.map (saveRow stOk)) :=
  ⟨rfl, by decide, rfl, rfl,
   (C8_saveScalarFieldsOnly stEmpty gw100).1 rfl rfl rfl,
   (C8_saveScalarFieldsOnly stOk gwNoWrite).2.1 rfl rfl (by decide) rfl,
   (C8_saveScalarFieldsOnly stOk gw100).2.2 rfl rfl (by decide) rfl⟩

/-- C9 counterexample: the claim fails on the header: class Account
declares no data member able to hold a roster snapshot (account.hpp
lines 237-245 list only the two interface pointers and six scalar
fields), so no Load-time snapshot can be returned; accordingly the
modelled GetAccountPlayers reads storage, witnessed on a concrete call
by the gateway fetch counter advancing. -/
theorem C9_rosterSnapshot_cex :
    accountDataMembers.all (fun m => m.2 != CppType.tVectorPlayer) = true ∧
    (GetAccountPlayers stOk gw100 true).2.2.fetches ≠ gw100.fetches := by
  exact ⟨by decide, by decide⟩

/-- C9 (amended): GetAccountPlayers re-fetches the roster from storage
on each call (the class caches no roster member) and returns the stored
entries, unfiltered and in their original stored order. -/
theorem C9_getAccountPlayersFetches (st : AccountState) (gw : Gateway)
    (hdb : st.db_ = true) (htk : st.db_tasks_ = true) (hid : st.id_ ≠ 0)
    (hr : gw.readOk = true) :
    (GetAccountPlayers st gw true).1 = ERROR_NO ∧
    (GetAccountPlayers st gw true).2.1 = some gw.roster ∧
    (GetAccountPlayers st gw true).2.2.fetches = gw.fetches + 1 := by
  simp [GetAccountPlayers, hdb, htk, hid, hr, bumpFetch]

/-- Witness for C9 (amended), at the spec's roster scenario: entries
Hero (deletion 0) and Alt (deletion 1699999999) in stored order. -/
theorem C9_getAccountPlayersFetches_witness :
    stOk.db_ = true ∧ stOk.db_tasks_ = true ∧ stOk.id_ ≠ 0 ∧
    gw100.readOk = true ∧
    ((GetAccountPlayers stOk gw100 true).1 = ERROR_NO ∧
     (GetAccountPlayers stOk gw100 true).2.1 = some gw100.roster ∧
     (GetAccountPlayers stOk gw100 true).2.2.fetches = gw100.fetches + 1) :=
  ⟨rfl, rfl, by decide, rfl,
   C9_getAccountPlayersFetches stOk gw100 rfl rfl (by decide) rfl⟩

/-- C10: every getter that returns its value through an out-parameter
pointer, handed a null pointer, returns ERROR_NULLPTR, writes nothing
through the pointer, and leaves the account state and the gateway
unchanged. -/
theorem C10_nullPointerSafe (st : AccountState) (gw : Gateway) (cname : String) :
    GetCoins st gw false = (ERROR_NULLPTR, none, gw) ∧
    GetID st false = (ERROR_NULLPTR, none) ∧
    GetEmail st false = (ERROR_NULLPTR, none) ∧
    GetPassword st false = (ERROR_NULLPTR, none) ∧
    GetPremiumRemaningDays st false = (ERROR_NULLPTR, none) ∧
    GetPremiumLastDay st false = (ERROR_NULLPTR, none) ∧
    GetAccountType st false = (ERROR_NULLPTR, none) ∧
    GetAccountPlayer st gw false cname = (ERROR_NULLPTR, none, gw) ∧
    GetAccountPlayers st gw false = (ERROR_NULLPTR, none, gw) :=
  ⟨rfl, rfl, rfl, rfl, rfl, rfl, rfl, rfl, rfl⟩
